import Mathlib

/-!
Verification of the EcoSnap waste-detection service.

Shallow embedding of the Python sources of the repository:
src/ai/waste_detector.py, src/ai/detection.py, src/ai/train_model.py and
src/ai/dataset_preprocessing.py.

Modelling conventions: machine floating-point numbers are modelled by
rationals; the convolutional model forward pass is abstracted as the
softmax output vector it returns (a list of rationals); a Python
exception caught by a try/except block is modelled by the explicit
branch that builds the corresponding error result; a Python dict is an
association list looked up in insertion order.
-/

namespace EcoSnap

/-- Python dict lookup d.get(k) over an association list: some v when k
is a key of the dict, none otherwise. -/
def dictGet (m : List (String × String)) (k : String) : Option String :=
  (m.find? (fun p => p.1 == k)).map (fun p => p.2)

namespace WasteDetector

/-- waste_detector.py line 14: self.class_names. -/
def class_names : List String := ["Plastic", "Chemical", "Oil", "Mixed Waste"]

/-- waste_detector.py lines 15-20: self.risk_levels. -/
def risk_levels : List (String × String) :=
  [("Plastic", "Medium"), ("Chemical", "Critical"), ("Oil", "High"),
   ("Mixed Waste", "Medium")]

/-- waste_detector.py line 21: self.confidence_threshold = 0.6. -/
def confidence_threshold : ℚ := 6 / 10

/-- Python round(x, 2): round to two decimal places. Ties are rounded
half-up here, where Python rounds the underlying binary float to even;
no claim in this development depends on tie behaviour. -/
def round2 (x : ℚ) : ℚ := ((round (100 * x) : ℤ) : ℚ) / 100

/-- Helper for argmax: walks the tail, i being the index of the head of
the remaining list in the full list, best the current argmax and bestVal
its value; a strict improvement is required to move, so the first
maximum wins, as in numpy. -/
def argmaxAux : List ℚ → ℕ → ℕ → ℚ → ℕ
  | [], _, best, _ => best
  | x :: xs, i, best, bestVal =>
    if bestVal < x then argmaxAux xs (i + 1) i x
    else argmaxAux xs (i + 1) best bestVal

/-- np.argmax(predictions[0]), waste_detector.py line 124. On the empty
list numpy raises instead; predict guards that case separately. -/
def argmax : List ℚ → ℕ
  | [] => 0
  | x :: xs => argmaxAux xs 1 0 x

/-- The result dict returned by WasteDetector.predict (lines 137-145 on
success, lines 153-159 on error). -/
structure PredictResult where
  wasteType : String
  confidence : ℚ
  riskLevel : String
  error : Option String := none
  allPredictions : List (String × ℚ)
deriving DecidableEq, Repr

/-- waste_detector.py lines 131-135: the confidence-threshold step,
taking the predicted class, its risk level and the confidence as a
percentage, and returning the possibly overridden triple
(waste_type, risk_level, confidence). -/
def applyThreshold (waste_type risk_level : String) (confidence : ℚ) :
    String × String × ℚ :=
  if confidence < confidence_threshold * 100 then
    ("Unknown", "Low", max confidence 50)
  else
    (waste_type, risk_level, confidence)

/-- waste_detector.py lines 151-159: WasteDetector._create_error_result. -/
def _create_error_result (error_message : String) : PredictResult :=
  { wasteType := "Unknown"
    confidence := 50
    riskLevel := "Low"
    error := some error_message
    allPredictions := class_names.map (fun name => (name, 25)) }

/-- waste_detector.py lines 120-149: the body of WasteDetector.predict
after preprocessing succeeded, on the softmax output vector preds of the
model forward pass. Every branch that raises in Python (argmax of an
empty array, class_names index out of range, risk_levels key error, an
out-of-range read while building allPredictions) is caught by the
enclosing try/except and becomes the error result of line 149; the
message strings model str(e). -/
def predictCore (preds : List ℚ) : PredictResult :=
  if preds.isEmpty then
    _create_error_result
      "Prediction failed: attempt to get argmax of an empty sequence"
  else
    let idx := argmax preds
    match class_names[idx]? with
    | none => _create_error_result "Prediction failed: list index out of range"
    | some waste_type =>
      match dictGet risk_levels waste_type with
      | none => _create_error_result ("Prediction failed: " ++ waste_type)
      | some risk_level =>
        if preds.length < class_names.length then
          _create_error_result "Prediction failed: index out of range"
        else
          let confidence := 100 * preds.getD idx 0
          let t := applyThreshold waste_type risk_level confidence
          { wasteType := t.1
            confidence := round2 t.2.2
            riskLevel := t.2.1
            error := none
            allPredictions :=
              (List.range class_names.length).map
                (fun i => (class_names.getD i "", round2 (100 * preds.getD i 0))) }

/-- waste_detector.py lines 112-149: WasteDetector.predict. Its input is
the outcome of preprocess_image followed by the model forward pass:
none when preprocess_image returned None (line 117), otherwise the
softmax output vector. -/
def predict (input : Option (List ℚ)) : PredictResult :=
  match input with
  | none => _create_error_result "Failed to preprocess image"
  | some preds => predictCore preds

/-- A Keras layer of the architectures built in this repository,
recorded symbolically: the pretrained MobileNetV2 backbone with its
trainable flag, weights and include_top arguments, and the head layers
with their constructor arguments. -/
inductive Layer where
  | mobileNetV2Base (trainable : Bool) (weights : String) (include_top : Bool)
  | globalAveragePooling2D
  | dense (units : ℕ) (activation : String)
  | dropout (rate : ℚ)
deriving DecidableEq, Repr

/-- waste_detector.py lines 24-51: WasteDetector.create_model, as the
stack of layers it builds. base_model.trainable = False (line 34) is the
trainable flag of the backbone entry; Dense(len(self.class_names),
activation=softmax) (line 41) is the final entry. -/
def create_model : List Layer :=
  [Layer.mobileNetV2Base false "imagenet" false,
   Layer.globalAveragePooling2D,
   Layer.dense 128 "relu",
   Layer.dropout (1 / 2),
   Layer.dense class_names.length "softmax"]

/-- waste_detector.py lines 93-106: the tail of preprocess_image. The
PIL calls convert(RGB) and resize((224, 224)) are library code whose
output is a 224 by 224 RGB image of 8-bit pixel values; this function
models the remaining source lines, np.array(image) / 255.0 (line 101)
and np.expand_dims(image_array, axis=0) (line 104), so its result type
is the shape (1, 224, 224, 3) of the returned array. -/
def preprocess_image (img : Fin 224 → Fin 224 → Fin 3 → Fin 256) :
    Fin 1 → Fin 224 → Fin 224 → Fin 3 → ℚ :=
  fun _ i j c => ((img i j c : ℕ) : ℚ) / 255

end WasteDetector

namespace Detection

/-- The JSON body of a response of the /api/detect route: either the
fixed inline error dict of detection.py lines 14-19, or a formatted
prediction result. -/
inductive DetectResponse where
  | errorBody (error wasteType : String) (confidence : ℚ) (riskLevel : String)
  | result (r : WasteDetector.PredictResult)
deriving DecidableEq, Repr

/-- detection.py lines 7-26: the /api/detect handler detect_waste. The
request body is none when request.get_json() yields no object, else the
association list of the JSON dict. pipeline composes the image fetch and
decode, preprocess_image and the model forward pass on the URL: it is
the input handed to WasteDetector.predict, none when preprocessing
fails. Python treats an empty dict as falsy, so the emptiness test is
part of the guard of line 13. The pair is (HTTP status, JSON body). -/
def detect_waste (body : Option (List (String × String)))
    (pipeline : String → Option (List ℚ)) : ℕ × DetectResponse :=
  match body with
  | none => (400, DetectResponse.errorBody "No image URL provided" "Unknown" 50 "Low")
  | some data =>
    if data.isEmpty || (dictGet data "imageUrl").isNone then
      (400, DetectResponse.errorBody "No image URL provided" "Unknown" 50 "Low")
    else
      match dictGet data "imageUrl" with
      | none =>
        (400, DetectResponse.errorBody "No image URL provided" "Unknown" 50 "Low")
      | some image_url =>
        (200, DetectResponse.result (WasteDetector.predict (pipeline image_url)))

end Detection

namespace WasteModelTrainer

/-- train_model.py line 23: self.class_names of WasteModelTrainer. -/
def class_names : List String := ["Plastic", "Chemical", "Oil", "Mixed Waste"]

/-- train_model.py line 26: self.epochs = 50. -/
def epochs : ℕ := 50

/-- train_model.py line 25: self.batch_size = 32. -/
def batch_size : ℕ := 32

/-- train_model.py line 107: num_samples_per_class = 250. -/
def num_samples_per_class : ℕ := 250

/-- train_model.py line 108: total_samples. -/
def total_samples : ℕ := num_samples_per_class * class_names.length

/-- train_model.py line 121: split_idx = int(0.8 * total_samples). On
the actual value 1000 the float product is exactly 800.0, so integer
arithmetic is exact here. -/
def split_idx : ℕ := 8 * total_samples / 10

/-- The sizes of the two halves returned by create_synthetic_data
(train_model.py lines 102-125); the samples themselves are draws of
np.random.random, abstracted away. -/
structure SyntheticData where
  trainSamples : ℕ
  valSamples : ℕ
deriving DecidableEq, Repr

/-- train_model.py lines 102-125: WasteModelTrainer.create_synthetic_data,
as the sizes of the split it returns: X[:split_idx] and X[split_idx:]. -/
def create_synthetic_data : SyntheticData :=
  { trainSamples := split_idx, valSamples := total_samples - split_idx }

/-- The observable outcome of one call of WasteModelTrainer.train_model:
which data branch ran, the sample counts it trained and validated on,
the epochs argument given to model.fit, and the path the final model is
saved to. -/
structure TrainRun where
  usedSynthetic : Bool
  trainSamples : ℕ
  valSamples : ℕ
  epochsArg : ℕ
  savePath : String
deriving DecidableEq, Repr

/-- train_model.py lines 127-191: WasteModelTrainer.train_model.
pathExists models os.path.exists; data_dir is none for the default
argument None, and Python also treats the empty string as falsy in the
guard of line 161. realTrainCount and realValCount are the sizes the
directory generators of the real-data branch would yield. EarlyStopping
may stop a fit before its epochs argument, so epochsArg is an upper
bound on the epochs run. -/
def train_model (pathExists : String → Bool)
    (realTrainCount realValCount : ℕ)
    (data_dir : Option String) (use_synthetic : Bool) : TrainRun :=
  if use_synthetic || (data_dir.getD "").isEmpty || !pathExists (data_dir.getD "") then
    { usedSynthetic := true
      trainSamples := create_synthetic_data.trainSamples
      valSamples := create_synthetic_data.valSamples
      epochsArg := min epochs 10
      savePath := "models/waste_detector.h5" }
  else
    { usedSynthetic := false
      trainSamples := realTrainCount
      valSamples := realValCount
      epochsArg := epochs
      savePath := "models/waste_detector.h5" }

end WasteModelTrainer

namespace DatasetPreprocessor

/-- dataset_preprocessing.py lines 18-43: self.class_mapping. -/
def class_mapping : List (String × String) :=
  [("Plastic bag", "Plastic"),
   ("Plastic bottle", "Plastic"),
   ("Plastic container", "Plastic"),
   ("Plastic cup", "Plastic"),
   ("Plastic lid", "Plastic"),
   ("Plastic straw", "Plastic"),
   ("Plastic utensils", "Plastic"),
   ("Battery", "Chemical"),
   ("Aerosol", "Chemical"),
   ("Paint bucket", "Chemical"),
   ("Chemical container", "Chemical"),
   ("Oil container", "Oil"),
   ("Motor oil", "Oil"),
   ("Cooking oil", "Oil"),
   ("Mixed waste", "Mixed Waste"),
   ("General litter", "Mixed Waste"),
   ("Unknown", "Mixed Waste")]

/-- dataset_preprocessing.py line 45: self.target_classes. -/
def target_classes : List String := ["Plastic", "Chemical", "Oil", "Mixed Waste"]

/-- dataset_preprocessing.py line 130 inside process_taco_dataset:
target_class = self.class_mapping.get(category_name, "Mixed Waste"),
the single target class every source category name is filed under. -/
def mapToTargetClass (category_name : String) : String :=
  (dictGet class_mapping category_name).getD "Mixed Waste"

end DatasetPreprocessor

/-! Helper lemmas shared by the claim theorems. -/

namespace WasteDetector

/-- Rounding to two decimals keeps a value at least 50 at least 50. -/
lemma round2_ge_fifty {x : ℚ} (h : 50 ≤ x) : 50 ≤ round2 x := by
  unfold round2
  have h2 : (5000 : ℤ) ≤ round (100 * x) := by
    rw [round_eq]
    have hle : (5000 : ℚ) + 1 / 2 ≤ 100 * x + 1 / 2 := by linarith
    calc (5000 : ℤ) = ⌊(5000 : ℚ) + 1 / 2⌋ := by norm_num
      _ ≤ ⌊100 * x + 1 / 2⌋ := Int.floor_le_floor hle
  have h3 : (5000 : ℚ) ≤ ((round (100 * x) : ℤ) : ℚ) := by exact_mod_cast h2
  linarith

/-- An element read by a successful index lookup belongs to the list. -/
lemma mem_of_getElem_some {l : List String} {i : ℕ} {a : String}
    (h : l[i]? = some a) : a ∈ l := by
  rw [List.getElem?_eq_some] at h
  obtain ⟨hi, rfl⟩ := h
  exact List.getElem_mem hi

/-- A value found by dictGet is one of the values of the association
list. -/
lemma dictGet_mem_values {m : List (String × String)} {k v : String}
    (h : dictGet m k = some v) : v ∈ m.map Prod.snd := by
  unfold dictGet at h
  cases hf : m.find? (fun p => p.1 == k) with
  | none => rw [hf] at h; simp at h
  | some pr =>
    rw [hf] at h
    obtain rfl : pr.2 = v := by simpa using h
    exact List.mem_map_of_mem _ (List.mem_of_find?_eq_some hf)

/-- The success path of predictCore, as one equation: when the input is
nonempty, the argmax index is a valid class index, the risk lookup
succeeds and the vector is long enough, predictCore returns the
thresholded and rounded result record. -/
lemma predictCore_success (preds : List ℚ) (wt rl : String)
    (hne : preds.isEmpty = false)
    (hwt : class_names[argmax preds]? = some wt)
    (hrl : dictGet risk_levels wt = some rl)
    (hlen : ¬ preds.length < class_names.length) :
    predictCore preds =
      { wasteType := (applyThreshold wt rl (100 * preds.getD (argmax preds) 0)).1
        confidence := round2 (applyThreshold wt rl (100 * preds.getD (argmax preds) 0)).2.2
        riskLevel := (applyThreshold wt rl (100 * preds.getD (argmax preds) 0)).2.1
        error := none
        allPredictions :=
          (List.range class_names.length).map
            (fun i => (class_names.getD i "", round2 (100 * preds.getD i 0))) } := by
  simp only [predictCore, hne, hwt, hrl, Bool.false_eq_true, if_false, hlen]

end WasteDetector

/-! Claim theorems. -/

namespace WasteDetector

/-- C2: for every prediction whose confidence percentage is strictly
below confidence_threshold times 100, which equals 60, the thresholding
step of predict returns waste type "Unknown", risk level "Low" and the
maximum of the original percentage and 50; otherwise it leaves class,
risk level and confidence unchanged. -/
theorem applyThreshold_confidence_spec :
    (∀ wt rl : String, ∀ c : ℚ, c < confidence_threshold * 100 →
      applyThreshold wt rl c = ("Unknown", "Low", max c 50))
    ∧ (∀ wt rl : String, ∀ c : ℚ, ¬ c < confidence_threshold * 100 →
      applyThreshold wt rl c = (wt, rl, c))
    ∧ confidence_threshold * 100 = 60 := by
  refine ⟨fun wt rl c h => ?_, fun wt rl c h => ?_, by norm_num [confidence_threshold]⟩
  · simp [applyThreshold, h]
  · simp [applyThreshold, h]

/-- Witness for C2 at the concrete confidences 55 (below threshold) and
70 (above threshold). -/
theorem applyThreshold_confidence_spec_witness :
    applyThreshold "Plastic" "Medium" 55 = ("Unknown", "Low", max 55 50)
    ∧ applyThreshold "Plastic" "Medium" 70 = ("Plastic", "Medium", 70) :=
  ⟨applyThreshold_confidence_spec.1 "Plastic" "Medium" 55
      (by norm_num [confidence_threshold]),
   applyThreshold_confidence_spec.2.1 "Plastic" "Medium" 70
      (by norm_num [confidence_threshold])⟩

/-- C4: for every image that decodes successfully, preprocess_image
returns an array of shape (1, 224, 224, 3), recorded in its result type,
whose entries are the 8-bit pixel values divided by 255, so every entry
lies in the closed interval from 0 to 1. -/
theorem preprocess_image_shape_range (img : Fin 224 → Fin 224 → Fin 3 → Fin 256)
    (b : Fin 1) (i j : Fin 224) (c : Fin 3) :
    preprocess_image img b i j c = ((img i j c : ℕ) : ℚ) / 255
    ∧ 0 ≤ preprocess_image img b i j c
    ∧ preprocess_image img b i j c ≤ 1 := by
  unfold preprocess_image
  refine ⟨rfl, by positivity, ?_⟩
  rw [div_le_one (by norm_num)]
  have hlt := (img i j c).isLt
  exact_mod_cast Nat.lt_succ_iff.mp hlt

/-- C7: create_model builds a stack whose pretrained backbone is frozen
(its trainable flag is false, and it is the only backbone entry) and
whose final layer is a Dense softmax layer with exactly
class_names.length equal to 4 units, one probability per category. -/
theorem create_model_architecture :
    create_model.head? = some (Layer.mobileNetV2Base false "imagenet" false)
    ∧ create_model.getLast? = some (Layer.dense class_names.length "softmax")
    ∧ class_names.length = 4
    ∧ ∀ (t : Bool) (w : String) (inc : Bool),
        Layer.mobileNetV2Base t w inc ∈ create_model → t = false := by
  refine ⟨rfl, rfl, rfl, ?_⟩
  intro t w inc hmem
  simp only [create_model, List.mem_cons, List.mem_singleton] at hmem
  rcases hmem with h | h | h | h | h <;> simp_all

/-- Witness for C7: the backbone entry of create_model is a member of
the stack, and its trainable flag is false. -/
theorem create_model_architecture_witness :
    Layer.mobileNetV2Base false "imagenet" false ∈ create_model
    ∧ (false : Bool) = false :=
  ⟨List.mem_cons_self _ _,
   create_model_architecture.2.2.2 false "imagenet" false (List.mem_cons_self _ _)⟩

/-- C8: predict never escapes with an exception: the preprocessing
failure input returns the fixed default result, and every error result
has waste type "Unknown", confidence 50, risk level "Low", the error
message, and 25 percent assigned to each of the four classes. -/
theorem predict_error_path_spec :
    predict none =
      { wasteType := "Unknown", confidence := 50, riskLevel := "Low",
        error := some "Failed to preprocess image",
        allPredictions :=
          [("Plastic", 25), ("Chemical", 25), ("Oil", 25), ("Mixed Waste", 25)] }
    ∧ ∀ msg : String, _create_error_result msg =
      { wasteType := "Unknown", confidence := 50, riskLevel := "Low",
        error := some msg,
        allPredictions :=
          [("Plastic", 25), ("Chemical", 25), ("Oil", 25), ("Mixed Waste", 25)] } :=
  ⟨rfl, fun _ => rfl⟩

end WasteDetector

namespace DatasetPreprocessor

/-- C10: every source category name, also one absent from
class_mapping, is mapped to one of the four target classes, the default
being "Mixed Waste", so each processed image is filed under exactly the
one directory of mapToTargetClass of its category name. -/
theorem mapToTargetClass_mem_target (category_name : String) :
    mapToTargetClass category_name ∈ target_classes := by
  unfold mapToTargetClass dictGet
  cases hf : class_mapping.find? (fun p => p.1 == category_name) with
  | none => simp [target_classes]
  | some pr =>
    have hmem := List.mem_of_find?_eq_some hf
    have hall : ∀ q ∈ class_mapping, q.2 ∈ target_classes := by decide
    simpa using hall pr hmem

end DatasetPreprocessor

namespace WasteDetector

/-- C1 counterexample: on the uniform softmax output, predict returns
the waste type "Unknown", which is not one of the four categories of
class_names, so not every prediction carries one of the four category
labels. -/
theorem predict_four_categories_cex :
    (predict (some [1 / 4, 1 / 4, 1 / 4, 1 / 4])).wasteType = "Unknown"
    ∧ "Unknown" ∉ class_names := by
  constructor
  · have h : dictGet risk_levels "Plastic" = some "Medium" := rfl
    norm_num [predict, predictCore, argmax, argmaxAux, h, applyThreshold,
      class_names, confidence_threshold, round2, _create_error_result,
      List.range_succ]
  · decide

/-- C1 amended: for every input, predict returns a result whose waste
type is one of the four categories of class_names or the fallback label
"Unknown", together with a risk level among "Low", "Medium", "High" and
"Critical". -/
theorem predict_wasteType_amended (input : Option (List ℚ)) :
    ((predict input).wasteType ∈ class_names
      ∨ (predict input).wasteType = "Unknown")
    ∧ (predict input).riskLevel ∈ ["Low", "Medium", "High", "Critical"] := by
  have herr : ∀ m : String,
      ((_create_error_result m).wasteType = "Unknown"
        ∧ (_create_error_result m).riskLevel = "Low") := fun _ => ⟨rfl, rfl⟩
  cases input with
  | none =>
    refine ⟨Or.inr (herr _).1, ?_⟩
    rw [show (predict none).riskLevel = "Low" from (herr _).2]
    simp
  | some preds =>
    show ((predictCore preds).wasteType ∈ class_names
        ∨ (predictCore preds).wasteType = "Unknown")
      ∧ (predictCore preds).riskLevel ∈ ["Low", "Medium", "High", "Critical"]
    simp only [predictCore]
    split
    · exact ⟨Or.inr rfl, by simp [_create_error_result]⟩
    · split
      · exact ⟨Or.inr rfl, by simp [_create_error_result]⟩
      · rename_i wt hwt
        split
        · exact ⟨Or.inr rfl, by simp [_create_error_result]⟩
        · rename_i rl hrl
          split
          · exact ⟨Or.inr rfl, by simp [_create_error_result]⟩
          · dsimp only
            have hrlmem : rl ∈ (["Medium", "Critical", "High", "Medium"] : List String) := by
              simpa [risk_levels] using dictGet_mem_values hrl
            unfold applyThreshold
            split
            · exact ⟨Or.inr rfl, by simp⟩
            · refine ⟨Or.inl (mem_of_getElem_some hwt), ?_⟩
              simp only [List.mem_cons, List.mem_singleton] at hrlmem ⊢
              tauto

/-- C3: for every prediction that passes the confidence threshold, the
returned risk level is exactly the value risk_levels assigns to the
returned waste type, and the fixed map sends "Plastic" to "Medium",
"Chemical" to "Critical", "Oil" to "High" and "Mixed Waste" to
"Medium". -/
theorem predict_riskLevel_matches_map (ps : List ℚ)
    (h1 : ps.isEmpty = false)
    (h2 : argmax ps < class_names.length)
    (h3 : class_names.length ≤ ps.length)
    (h4 : confidence_threshold * 100 ≤ 100 * ps.getD (argmax ps) 0) :
    dictGet risk_levels ((predict (some ps)).wasteType)
        = some ((predict (some ps)).riskLevel)
    ∧ dictGet risk_levels "Plastic" = some "Medium"
    ∧ dictGet risk_levels "Chemical" = some "Critical"
    ∧ dictGet risk_levels "Oil" = some "High"
    ∧ dictGet risk_levels "Mixed Waste" = some "Medium" := by
  refine ⟨?_, rfl, rfl, rfl, rfl⟩
  have hlen : ¬ ps.length < class_names.length := not_lt.mpr h3
  show dictGet risk_levels ((predictCore ps).wasteType)
      = some ((predictCore ps).riskLevel)
  obtain ⟨k, hk⟩ : ∃ k, argmax ps = k := ⟨_, rfl⟩
  rw [hk] at h2 h4
  have h2four : k < 4 := h2
  interval_cases k
  · rw [predictCore_success ps "Plastic" "Medium" h1 (by rw [hk]; rfl) rfl hlen]
    dsimp only
    rw [hk]
    simp only [applyThreshold]
    rw [if_neg (not_lt.mpr h4)]
    rfl
  · rw [predictCore_success ps "Chemical" "Critical" h1 (by rw [hk]; rfl) rfl hlen]
    dsimp only
    rw [hk]
    simp only [applyThreshold]
    rw [if_neg (not_lt.mpr h4)]
    rfl
  · rw [predictCore_success ps "Oil" "High" h1 (by rw [hk]; rfl) rfl hlen]
    dsimp only
    rw [hk]
    simp only [applyThreshold]
    rw [if_neg (not_lt.mpr h4)]
    rfl
  · rw [predictCore_success ps "Mixed Waste" "Medium" h1 (by rw [hk]; rfl) rfl hlen]
    dsimp only
    rw [hk]
    simp only [applyThreshold]
    rw [if_neg (not_lt.mpr h4)]
    rfl

/-- Witness for C3 on the concrete softmax output with all probability
on the third class: the prediction passes the threshold with class
"Oil", and the returned risk level is the mapped value. -/
theorem predict_riskLevel_matches_map_witness :
    dictGet risk_levels ((predict (some [(0 : ℚ), 0, 1, 0])).wasteType)
      = some ((predict (some [(0 : ℚ), 0, 1, 0])).riskLevel) :=
  (predict_riskLevel_matches_map [(0 : ℚ), 0, 1, 0] rfl
      (by norm_num [argmax, argmaxAux, class_names])
      (by norm_num [class_names])
      (by norm_num [argmax, argmaxAux, confidence_threshold])).1

/-- C9: every result predict returns, on the success path, the
threshold fallback path and every error path, has a confidence of at
least 50. -/
theorem predict_confidence_ge_fifty (input : Option (List ℚ)) :
    50 ≤ (predict input).confidence := by
  have herr : ∀ m : String, (_create_error_result m).confidence = 50 := fun _ => rfl
  cases input with
  | none => exact (herr _).ge
  | some preds =>
    show 50 ≤ (predictCore preds).confidence
    simp only [predictCore]
    split
    · exact (herr _).ge
    · split
      · exact (herr _).ge
      · split
        · exact (herr _).ge
        · split
          · exact (herr _).ge
          · dsimp only
            unfold applyThreshold
            split
            · exact round2_ge_fifty (le_max_right _ _)
            · rename_i h
              have h60 := not_lt.mp h
              rw [show confidence_threshold * 100 = (60 : ℚ) from by
                norm_num [confidence_threshold]] at h60
              apply round2_ge_fifty
              dsimp only
              linarith

end WasteDetector

namespace WasteModelTrainer

/-- C5: whenever synthetic mode is requested or the dataset directory
is missing, train_model trains on the synthetic split of
num_samples_per_class equal 250 samples per class, total_samples equal
1000, split 800 to 200, for the epochs argument min 50 10 equal 10, and
saves the model to models/waste_detector.h5. -/
theorem train_model_synthetic_fallback (pathExists : String → Bool)
    (realTrainCount realValCount : ℕ)
    (data_dir : Option String) (use_synthetic : Bool)
    (h : use_synthetic = true ∨ data_dir = none
        ∨ ∃ d, data_dir = some d ∧ pathExists d = false) :
    train_model pathExists realTrainCount realValCount data_dir use_synthetic =
      { usedSynthetic := true, trainSamples := 800, valSamples := 200,
        epochsArg := 10, savePath := "models/waste_detector.h5" }
    ∧ num_samples_per_class = 250
    ∧ total_samples = 1000
    ∧ create_synthetic_data.trainSamples = 8 * total_samples / 10 := by
  refine ⟨?_, rfl, rfl, rfl⟩
  unfold train_model
  rcases h with h | h | ⟨d, hd, hpe⟩
  · subst h
    rfl
  · subst h
    have he : ("" : String).isEmpty = true := rfl
    norm_num [he, create_synthetic_data, split_idx, total_samples,
      num_samples_per_class, class_names, epochs]
  · subst hd
    norm_num [hpe, create_synthetic_data, split_idx, total_samples,
      num_samples_per_class, class_names, epochs]

/-- Witness for C5: a dataset directory that does not exist, with
synthetic mode off, still takes the synthetic branch. -/
theorem train_model_synthetic_fallback_witness :
    train_model (fun _ => false) 0 0 (some "data/waste_dataset") false
      = { usedSynthetic := true, trainSamples := 800, valSamples := 200,
          epochsArg := 10, savePath := "models/waste_detector.h5" } :=
  (train_model_synthetic_fallback (fun _ => false) 0 0
      (some "data/waste_dataset") false
      (Or.inr (Or.inr ⟨"data/waste_dataset", rfl, rfl⟩))).1

end WasteModelTrainer

namespace Detection

/-- C6: for every POST body whose JSON dict contains the key imageUrl,
detect_waste hands the URL to the fetch, decode, preprocess and forward
pipeline, applies WasteDetector.predict with its threshold and format
step, and returns the formatted result with HTTP status 200. -/
theorem detect_waste_imageUrl_200 (data : List (String × String))
    (pipeline : String → Option (List ℚ)) (url : String)
    (h : dictGet data "imageUrl" = some url) :
    detect_waste (some data) pipeline
      = (200, DetectResponse.result (WasteDetector.predict (pipeline url))) := by
  have hne : data.isEmpty = false := by
    cases data with
    | nil => simp [dictGet, List.find?] at h
    | cons a l => rfl
  simp [detect_waste, hne, h]

/-- Witness for C6 on a one-entry body and the pipeline that fails to
fetch: the handler still answers 200 with the formatted result. -/
theorem detect_waste_imageUrl_200_witness :
    detect_waste (some [("imageUrl", "http://example.com/waste.jpg")])
        (fun _ => none)
      = (200, DetectResponse.result (WasteDetector.predict none)) :=
  detect_waste_imageUrl_200 [("imageUrl", "http://example.com/waste.jpg")]
    (fun _ => none) "http://example.com/waste.jpg" rfl

end Detection

end EcoSnap
